import Mathlib

/-!
Verification of the snapshot subsystem of the customer-data-tools repository:
the OAuth 1.0a request signer (src/connectors/classlink.py), the dual-format
snapshot writer (src/snapshots/csv_writer.py), the snapshot manager state
machine (src/snapshots/snapshot_manager.py) and the ClassLink snapshot fetcher
(src/snapshots/classlink_fetcher.py).

Modelling conventions:
* Python dicts of strings are association lists (first binding wins, mirroring
  dict key uniqueness); `dict.get(k)` is `dictGet`, `dict.get(k, d)` is
  `dictGetD`.
* Wall-clock time is a `Nat` count of seconds; the 30-minute staleness
  comparison `(now - started_at).total_seconds() / 60 > 30` becomes
  `now - startedAt > 1800`.
* The filesystem state of one snapshot directory is the structure `SnapDir`;
  operations that mutate the directory return the new state.
* Upstream HTTP pagination is a function from offset to `Except` (a raised
  exception is `Except.error`); the unbounded `while True` loops are given
  fuel, instantiated large enough in every concrete run.
-/

/-- Python string membership helper: `needle` starts `hay`. -/
def listStartsWith : List Char → List Char → Bool
  | [], _ => true
  | _ :: _, [] => false
  | a :: as, b :: bs => a == b && listStartsWith as bs

/-- Substring occurrence: Python `needle in hay` on lists of characters. -/
def listContainsSub (needle : List Char) : List Char → Bool
  | [] => needle.isEmpty
  | c :: t => listStartsWith needle (c :: t) || listContainsSub needle t

/-- Python `needle in hay` for strings. -/
def pyIn (needle hay : String) : Bool :=
  listContainsSub needle.data hay.data

/-- Python `str.lower()` (ASCII case folding). -/
def pyLower (s : String) : String :=
  String.mk (s.data.map Char.toLower)

/-- Python `str.upper()` (ASCII case folding). -/
def pyUpper (s : String) : String :=
  String.mk (s.data.map Char.toUpper)

/-- A JSON-ish record (a Python dict of scalar fields rendered as strings). -/
abbrev Record := List (String × String)

/-- Python `dict.get(k)`: first binding for `k`, if any. -/
def dictGet (r : Record) (k : String) : Option String :=
  match r with
  | [] => none
  | kv :: rest => if kv.1 = k then some kv.2 else dictGet rest k

/-- Python `dict.get(k, d)`. -/
def dictGetD (r : Record) (k d : String) : String :=
  (dictGet r k).getD d

namespace OneRosterClient

/-!
Model of `OneRosterClient._generate_oauth_signature`
(src/connectors/classlink.py lines 33-67) up to the HMAC application: the
claims under check concern the construction of the signature base string and
of the signing key, which are the exact inputs handed to HMAC-SHA256.
-/

/-- UTF-8 encoding of one code point, as byte values. -/
def utf8Bytes (c : Char) : List Nat :=
  let n := c.toNat
  if n < 128 then [n]
  else if n < 2048 then [192 + n / 64, 128 + n % 64]
  else if n < 65536 then [224 + n / 4096, 128 + (n / 64) % 64, 128 + n % 64]
  else [240 + n / 262144, 128 + (n / 4096) % 64, 128 + (n / 64) % 64, 128 + n % 64]

/-- Upper-case hexadecimal digit, as used by `urllib.parse.quote`. -/
def hexDigit (n : Nat) : Char :=
  if n < 10 then Char.ofNat (48 + n) else Char.ofNat (55 + n)

/-- Bytes `urllib.parse.quote` leaves unescaped when `safe=''`:
unreserved characters A-Z, a-z, 0-9, hyphen, period, underscore, tilde. -/
def isUnreservedByte (b : Nat) : Bool :=
  (65 ≤ b && b ≤ 90) || (97 ≤ b && b ≤ 122) || (48 ≤ b && b ≤ 57) ||
    b == 45 || b == 46 || b == 95 || b == 126

/-- `urllib.parse.quote(s, safe='')`: percent-encode every byte of the UTF-8
encoding except unreserved ones; the space character becomes `%20`. -/
def pyQuote (s : String) : String :=
  String.mk ((s.data.flatMap utf8Bytes).flatMap fun b =>
    if isUnreservedByte b then [Char.ofNat b]
    else ['%', hexDigit (b / 16), hexDigit (b % 16)])

/-- Code-point lexicographic comparison of character lists. -/
def charListLt : List Char → List Char → Bool
  | [], [] => false
  | [], _ :: _ => true
  | _ :: _, [] => false
  | a :: as, b :: bs =>
    if a.toNat < b.toNat then true
    else if b.toNat < a.toNat then false
    else charListLt as bs

/-- Python string `<` (code-point lexicographic), as a Bool. -/
def strLtB (a b : String) : Bool := charListLt a.data b.data

/-- Python tuple comparison `(k1, v1) < (k2, v2)` for string pairs. -/
def pyPairLt (a b : String × String) : Bool :=
  strLtB a.1 b.1 || (a.1 == b.1 && strLtB a.2 b.2)

/-- Insertion step of Python `sorted` on pairs (stable). -/
def insertPair (a : String × String) : List (String × String) → List (String × String)
  | [] => [a]
  | b :: l => if pyPairLt a b then a :: b :: l else b :: insertPair a l

/-- Python `sorted(params.items())`: sorts the raw (unencoded) pairs
lexicographically, key first, then value. -/
def sortPairs : List (String × String) → List (String × String)
  | [] => []
  | a :: l => insertPair a (sortPairs l)

/-- Code line 46-50: sort the raw items, then percent-encode each key and
value and join as `key=value` pairs separated by ampersands. -/
def generate_oauth_param_string (params : List (String × String)) : String :=
  String.intercalate "&" ((sortPairs params).map fun kv =>
    pyQuote kv.1 ++ "=" ++ pyQuote kv.2)

/-- `urlparse(url)` reduced to what line 53-54 uses: the
`scheme://netloc + path` part of the URL, query and fragment stripped. -/
def base_url_of (url : String) : String :=
  match splitSchemeMarker url.data with
  | some p =>
    let netloc := p.2.takeWhile fun c => c != '/' && c != '?' && c != '#'
    let path := (p.2.drop netloc.length).takeWhile fun c => c != '?' && c != '#'
    String.mk p.1 ++ "://" ++ String.mk netloc ++ String.mk path
  | none =>
    "://" ++ String.mk (url.data.takeWhile fun c => c != '?' && c != '#')
where
  /-- Split a character list at the first `://` marker. -/
  splitSchemeMarker : List Char → Option (List Char × List Char)
    | [] => none
    | c :: rest =>
      if listStartsWith [':', '/', '/'] (c :: rest) then some ([], rest.drop 2)
      else (splitSchemeMarker rest).map fun p => (c :: p.1, p.2)

/-- Code lines 46-55: the OAuth signature base string
`METHOD&quote(base_url)&quote(param_string)`. -/
def generate_oauth_signature_base (method url : String)
    (params : List (String × String)) : String :=
  pyUpper method ++ "&" ++ pyQuote (base_url_of url) ++ "&" ++
    pyQuote (generate_oauth_param_string params)

/-- Code line 58: the HMAC-SHA256 signing key
`quote(client_secret) + "&"` (empty token secret, 2-legged OAuth). -/
def oauth_signing_key (client_secret : String) : String :=
  pyQuote client_secret ++ "&"

/-- Stated from the spec sentence for the refinement check of claim C4:
percent-encode every key and value independently first, then sort the pairs
lexicographically by ENCODED key then encoded value, then join. -/
def spec_param_string (params : List (String × String)) : String :=
  String.intercalate "&" ((sortPairs (params.map fun kv =>
    (pyQuote kv.1, pyQuote kv.2))).map fun kv => kv.1 ++ "=" ++ kv.2)

/-- The signature base string built from the spec-side parameter string. -/
def spec_signature_base (method url : String)
    (params : List (String × String)) : String :=
  pyUpper method ++ "&" ++ pyQuote (base_url_of url) ++ "&" ++
    pyQuote (spec_param_string params)

/-- Amended description of the parameter string: pairs sorted by raw
(unencoded) key then raw value, each key and value then percent-encoded
independently, joined as `key=value` pairs separated by ampersands. -/
def spec_param_string_amended (params : List (String × String)) : String :=
  String.intercalate "&" (((sortPairs params).map fun kv =>
    (pyQuote kv.1, pyQuote kv.2)).map fun kv => kv.1 ++ "=" ++ kv.2)

/-- The signature base string built from the amended parameter string. -/
def spec_signature_base_amended (method url : String)
    (params : List (String × String)) : String :=
  pyUpper method ++ "&" ++ pyQuote (base_url_of url) ++ "&" ++
    pyQuote (spec_param_string_amended params)

end OneRosterClient

namespace SnapshotWriter

/-!
Model of `SnapshotWriter` (src/snapshots/csv_writer.py).  A CSV data row is
the list of cell strings in column order; the flat file is the list of data
rows (the header being the column list itself); the JSONL file is the list of
full records, one per line.  A missing flat file is `Option.none`.
-/

/-- Per-file metadata returned by `write_entity_data` (byte sizes are
filesystem stat results, outside the embedding). -/
structure FileMeta where
  rows : Nat
  columns : List String
  deriving Repr, DecidableEq

/-- Fixed column definitions per entity type (csv_writer.py lines 20-26). -/
def COLUMNS : String → Option (List String)
  | "students" => some ["sourcedId", "givenName", "familyName", "email",
      "grade", "status", "identifier"]
  | "parents" => some ["sourcedId", "givenName", "familyName", "email",
      "phone", "sms", "role", "status"]
  | "classes" => some ["sourcedId", "title", "classCode", "classType",
      "subjects", "status"]
  | "schools" => some ["sourcedId", "name", "type", "identifier", "status"]
  | "enrollments" => some ["sourcedId", "userId", "classSourcedId",
      "schoolSourcedId", "role", "status", "beginDate", "endDate"]
  | _ => none

/-- `write_entity_data` (lines 39-102): an unknown entity type raises
`ValueError`; otherwise each record is written as one CSV data row (the
fixed columns, extra fields ignored, missing fields as empty strings —
`DictWriter` with `extrasaction='ignore'` and default `restval=''`) and, on
the same pass, as one JSONL line holding the full record. -/
def write_entity_data (entityType : String) (data : List Record) :
    Except String (List (List String) × List Record × FileMeta) :=
  match COLUMNS entityType with
  | none => Except.error ("Unknown entity type: " ++ entityType)
  | some columns =>
    Except.ok (data.map (fun r => columns.map fun c => dictGetD r c ""),
      data,
      { rows := data.length, columns := columns })

/-- Index of a column name in a header. -/
def colIndex (cols : List String) (c : String) : Option Nat :=
  match cols with
  | [] => none
  | c0 :: rest => if c0 = c then some 0 else (colIndex rest c).map (· + 1)

/-- The cell of a CSV data row under a named column of the header. -/
def cellOf (cols : List String) (row : List String) (c : String) : Option String :=
  match colIndex cols c with
  | none => none
  | some i => row.get? i

/-- Default search columns of `search_csv` (lines 124-133). -/
def default_search_columns (entityType : String) : List String :=
  if entityType = "students" then
    ["givenName", "familyName", "email", "sourcedId", "identifier"]
  else if entityType = "parents" then
    ["givenName", "familyName", "email", "phone", "sourcedId"]
  else if entityType = "classes" then
    ["title", "classCode", "sourcedId"]
  else []

/-- The searched columns: the caller-given list, else the per-entity default. -/
def effective_columns (entityType : String) (cols : Option (List String)) :
    List String :=
  cols.getD (default_search_columns entityType)

/-- Line 149: `any(query_lower in str(row.get(col, '')).lower() for col in
search_columns)`. -/
def row_matches (queryLower : String) (cols : List String) (r : Record) : Bool :=
  cols.any fun c => pyIn queryLower (pyLower (dictGetD r c ""))

/-- The scan loop of `search_csv` (lines 147-153): append each matching row,
and break as soon as the result count has reached `limit`; `n` is the number
of results accumulated so far. -/
def search_go (queryLower : String) (cols : List String) (limit : Nat) :
    List Record → Nat → List Record
  | [], _ => []
  | r :: rs, n =>
    if row_matches queryLower cols r then
      if n + 1 ≥ limit then [r]
      else r :: search_go queryLower cols limit rs (n + 1)
    else search_go queryLower cols limit rs n

/-- `search_csv` (lines 104-165): a missing flat file yields no results;
otherwise scan the rows in file order with the effective search columns. -/
def search_csv (entityType query : String) (searchColumns : Option (List String))
    (limit : Nat) (file : Option (List Record)) : List Record :=
  match file with
  | none => []
  | some rows => search_go (pyLower query) (effective_columns entityType searchColumns)
      limit rows 0

end SnapshotWriter

namespace SnapshotManager

/-!
Model of `SnapshotManager` (src/snapshots/snapshot_manager.py) for one
snapshot key (district_id, date, source_type): the state of that key's
snapshot directory and the operations on it.  Timestamps are seconds.
-/

/-- Contents of the `.lock` file (snapshot_manager.py lines 219-224). -/
structure LockData where
  sessionId : String
  startedAt : Nat
  pid : Nat
  deriving Repr, DecidableEq

/-- The `fetch_stats` object of a status document; an error entry is a
(timestamp, message) pair. -/
structure FetchStats where
  totalApiCalls : Nat
  totalRecords : Nat
  durationSeconds : Nat
  errors : List (Nat × String)
  deriving Repr, DecidableEq

/-- The `status.json` document (lines 286-301). -/
structure StatusDoc where
  districtId : Nat
  snapshotDate : String
  sourceType : String
  status : String
  startedAt : Nat
  completedAt : Option Nat
  fetchedBySession : String
  files : List (String × SnapshotWriter.FileMeta)
  fetchStats : FetchStats
  deriving Repr, DecidableEq

/-- State of the `status.json` file on disk: absent, present but unparseable
(read raises and `get_snapshot` returns None), or readable. -/
inductive StatusFile where
  | absent : StatusFile
  | unreadable : StatusFile
  | readable : StatusDoc → StatusFile
  deriving Repr, DecidableEq

/-- State of one snapshot directory: the `.lock` file (parsed), the
`status.json` file, and the names of all other files in the directory
(entity CSV/JSONL files). -/
structure SnapDir where
  lock : Option LockData
  statusFile : StatusFile
  entityFiles : List String
  deriving Repr, DecidableEq

/-- `get_snapshot` (lines 56-91): the parsed status document, or none when
the file is absent or unreadable. -/
def get_snapshot (d : SnapDir) : Option StatusDoc :=
  match d.statusFile with
  | StatusFile.readable doc => some doc
  | _ => none

/-- `is_snapshot_in_progress` (lines 128-189).  A lock file older than 30
minutes is stale: it is deleted and the check answers false.  A fresh lock
answers true.  With no lock file, a readable `fetching` status document
answers true unless it is stale by the same threshold (the stale status file
is NOT deleted). -/
def is_snapshot_in_progress (now : Nat) (d : SnapDir) : Bool × SnapDir :=
  match d.lock with
  | some lk =>
    if now - lk.startedAt > 1800 then (false, { d with lock := none })
    else (true, d)
  | none =>
    match get_snapshot d with
    | some st =>
      if st.status = "fetching" then
        if now - st.startedAt > 1800 then (false, d) else (true, d)
      else (false, d)
    | none => (false, d)

/-- `create_lock` (lines 191-237): fails if a lock file already exists
(the exclusive-create `open(..., 'x')` and the prior existence check collapse
in a sequential model); otherwise writes the lock file. -/
def create_lock (now : Nat) (sessionId : String) (pid : Nat) (d : SnapDir) :
    Bool × SnapDir :=
  if d.lock.isSome then (false, d)
  else (true, { d with lock := some { sessionId := sessionId, startedAt := now, pid := pid } })

/-- `release_lock` (lines 239-255). -/
def release_lock (d : SnapDir) : SnapDir :=
  { d with lock := none }

/-- `update_status` (lines 312-332): (over)write `status.json`. -/
def update_status (doc : StatusDoc) (d : SnapDir) : SnapDir :=
  { d with statusFile := StatusFile.readable doc }

/-- The initial `fetching` status document (lines 286-301). -/
def initial_status (districtId : Nat) (date sourceType : String) (now : Nat)
    (sessionId : String) : StatusDoc :=
  { districtId := districtId
    snapshotDate := date
    sourceType := sourceType
    status := "fetching"
    startedAt := now
    completedAt := none
    fetchedBySession := sessionId
    files := []
    fetchStats := { totalApiCalls := 0, totalRecords := 0, durationSeconds := 0, errors := [] } }

/-- `initialize_snapshot` (lines 257-310): refuse when a fetch is already in
progress; then take the lock (refusing when that fails) and write the initial
`fetching` status document. -/
def initialize_snapshot (districtId : Nat) (date sourceType : String)
    (now : Nat) (sessionId : String) (pid : Nat) (d : SnapDir) : Bool × SnapDir :=
  let r := is_snapshot_in_progress now d
  if r.1 then (false, r.2)
  else
    let c := create_lock now sessionId pid r.2
    if c.1 then
      (true, update_status (initial_status districtId date sourceType now sessionId) c.2)
    else (false, c.2)

/-- `complete_snapshot` (lines 334-368): a missing/unreadable status document
aborts with no effect; otherwise mark complete, store files and stats,
recompute the duration, write the document, release the lock. -/
def complete_snapshot (now : Nat) (files : List (String × SnapshotWriter.FileMeta))
    (fetchStats : FetchStats) (d : SnapDir) : SnapDir :=
  match get_snapshot d with
  | none => d
  | some st =>
    let doc := { st with
      status := "complete"
      completedAt := some now
      files := files
      fetchStats := { fetchStats with durationSeconds := now - st.startedAt } }
    release_lock (update_status doc d)

/-- `fail_snapshot` (lines 370-399): a missing/unreadable status document
aborts with no effect; otherwise mark failed, append a timestamped error to
`fetch_stats.errors`, write the document, release the lock. -/
def fail_snapshot (now : Nat) (error : String) (d : SnapDir) : SnapDir :=
  match get_snapshot d with
  | none => d
  | some st =>
    let doc := { st with
      status := "failed"
      completedAt := some now
      fetchStats := { st.fetchStats with errors := st.fetchStats.errors ++ [(now, error)] } }
    release_lock (update_status doc d)

/-- `cleanup_partial_snapshot` (lines 401-422): delete every file in the
directory except `status.json` and `.lock`. -/
def cleanup_partial_snapshot (d : SnapDir) : SnapDir :=
  { d with entityFiles := [] }

/-- `search_snapshot` (lines 467-527): scan every row of the entity CSV and
keep, in file order and without any result cap, each row in which some
column value is truthy (non-empty) and contains the lowercased search term
(`if value and search_lower in str(value).lower()`). -/
def search_snapshot (searchTerm : String) (file : Option (List Record)) :
    List Record :=
  match file with
  | none => []
  | some rows =>
    rows.filter fun r => r.any fun kv =>
      kv.2 != "" && pyIn (pyLower searchTerm) (pyLower kv.2)

end SnapshotManager

namespace ClassLinkSnapshotFetcher

/-!
Model of `ClassLinkSnapshotFetcher` (src/snapshots/classlink_fetcher.py).
Each upstream entity endpoint is a function from the request offset to the
page it answers: `Except.ok page` for a JSON page, `Except.error e` for a
raised exception.  The `while True` pagination loops get a fuel bound on the
iteration count; every concrete run below terminates well inside its fuel.
-/

open SnapshotManager

/-- The loop body of `fetch_all_users` (classlink_fetcher.py lines 57-105):
one iteration calls the upstream at `offset`; an exception aborts pagination
(the call counter is not incremented, as the increment on line 74 follows the
call); otherwise the counter is incremented, an empty page stops without
accumulating, a short page (fewer than `limit` records) accumulates and
stops, and a full page accumulates and continues at `offset + limit`. -/
def fetch_all_users_go (pageFn : Nat → Except String (List Record)) (limit : Nat) :
    Nat → Nat → List Record → Nat → List Record × Nat
  | 0, _, acc, calls => (acc, calls)
  | fuel + 1, offset, acc, calls =>
    match pageFn offset with
    | Except.error _ => (acc, calls)
    | Except.ok users =>
      if users.isEmpty then (acc, calls + 1)
      else if users.length < limit then (acc ++ users, calls + 1)
      else fetch_all_users_go pageFn limit fuel (offset + limit) (acc ++ users) (calls + 1)

/-- `fetch_all_users` (lines 34-112): returns the accumulated user list and
the internal `api_call_count` (which the source computes and logs but never
returns — only the list is returned to the caller). -/
def fetch_all_users (pageFn : Nat → Except String (List Record))
    (limit fuel : Nat) : List Record × Nat :=
  fetch_all_users_go pageFn limit fuel 0 [] 0

/-- The pagination loop of `fetch_entity_paginated` (lines 135-182): same
protocol as the users loop, with no call counter. -/
def paginate_go (pageFn : Nat → Except String (List Record)) (limit : Nat) :
    Nat → Nat → List Record → List Record
  | 0, _, acc => acc
  | fuel + 1, offset, acc =>
    match pageFn offset with
    | Except.error _ => acc
    | Except.ok records =>
      if records.isEmpty then acc
      else if records.length < limit then acc ++ records
      else paginate_go pageFn limit fuel (offset + limit) (acc ++ records)

/-- `fetch_entity_paginated` (lines 114-188): dispatch on the entity type
(`classes` or `schools`); an unknown entity type breaks out immediately with
an empty accumulator. -/
def fetch_entity_paginated (pageClasses pageSchools : Nat → Except String (List Record))
    (entityType : String) (limit fuel : Nat) : List Record :=
  if entityType = "classes" then paginate_go pageClasses limit fuel 0 []
  else if entityType = "schools" then paginate_go pageSchools limit fuel 0 []
  else []

/-- The write phase of `create_snapshot` (lines 257-277): for each entity
group in order, skip it when empty; otherwise the two output files come into
existence, and either the write raises (an environmental error injected via
`wErr`, e.g. disk full, or a `ValueError` from the writer itself) — aborting
with the directory state at that point — or its metadata is recorded under
the `<entity>.csv` key. -/
def write_phase (wErr : String → Option String) :
    List (String × List Record) → SnapDir → List (String × SnapshotWriter.FileMeta) →
    Except (String × SnapDir) (SnapDir × List (String × SnapshotWriter.FileMeta))
  | [], d, metas => Except.ok (d, metas)
  | (name, recs) :: rest, d, metas =>
    if recs.isEmpty then write_phase wErr rest d metas
    else
      let d2 := { d with entityFiles := d.entityFiles ++ [name ++ ".csv", name ++ ".jsonl"] }
      match wErr name with
      | some e => Except.error (e, d2)
      | none =>
        match SnapshotWriter.write_entity_data name recs with
        | Except.error e => Except.error (e, d2)
        | Except.ok (_, _, meta) => write_phase wErr rest d2 (metas ++ [(name ++ ".csv", meta)])

/-- `create_snapshot` (lines 190-316).  Initialize (refusing when a fetch is
in progress); fetch all users, split them into students and parents/guardians
by exact role match; fetch classes and schools; `fetch_stats.total_api_calls`
is incremented once per entity fetch (lines 230, 244, 249 — the per-page
count inside `fetch_all_users` is NOT used); write the non-empty groups in
order students, parents, classes, schools; on success complete the snapshot
with the collected metadata and stats; on a raised exception mark the
snapshot failed with that error and clean up partial files.  `limit` is the
page size handed to the fetch helpers (the source passes their default,
2000); `durationSeconds` of wall-clock elapsed time is taken as 0 since the
model runs at one instant `now`. -/
def create_snapshot (districtId : Nat) (date sessionId : String) (pid now : Nat)
    (pageUsers pageClasses pageSchools : Nat → Except String (List Record))
    (limit fuel : Nat) (wErr : String → Option String) (d : SnapDir) :
    Bool × SnapDir :=
  let ini := initialize_snapshot districtId date "classlink" now sessionId pid d
  if !ini.1 then (false, ini.2)
  else
    let d1 := ini.2
    let fetched := fetch_all_users pageUsers limit fuel
    let all_users := fetched.1
    let students := all_users.filter fun u => dictGet u "role" == some "student"
    let parents := all_users.filter fun u =>
      dictGet u "role" == some "parent" || dictGet u "role" == some "guardian"
    let classes := fetch_entity_paginated pageClasses pageSchools "classes" limit fuel
    let schools := fetch_entity_paginated pageClasses pageSchools "schools" limit fuel
    let totalApiCalls := 0 + 1 + 1 + 1
    let totalRecords := all_users.length + classes.length + schools.length
    match write_phase wErr
        [("students", students), ("parents", parents),
         ("classes", classes), ("schools", schools)] d1 [] with
    | Except.ok (d2, metas) =>
      let stats : FetchStats :=
        { totalApiCalls := totalApiCalls, totalRecords := totalRecords,
          durationSeconds := 0, errors := [] }
      (true, complete_snapshot now metas stats d2)
    | Except.error (e, d2) =>
      (false, cleanup_partial_snapshot (fail_snapshot now e d2))

end ClassLinkSnapshotFetcher

/-! Concrete fixtures used by the claim theorems and witnesses. -/

open SnapshotManager SnapshotWriter ClassLinkSnapshotFetcher OneRosterClient

/-- A minimal user record with the given ordinal and role. -/
def mockUser (i : Nat) (role : String) : Record :=
  [("sourcedId", "u" ++ toString i), ("role", role)]

/-- Upstream users endpoint serving 3 pages of 2 users each (roles
alternating student/parent), then empty pages. -/
def usersThreePages (offset : Nat) : Except String (List Record) :=
  if offset = 0 then Except.ok [mockUser 1 "student", mockUser 2 "parent"]
  else if offset = 2 then Except.ok [mockUser 3 "student", mockUser 4 "parent"]
  else if offset = 4 then Except.ok [mockUser 5 "student", mockUser 6 "parent"]
  else Except.ok []

/-- Upstream users endpoint serving one full page and then raising. -/
def usersPageThenBoom (offset : Nat) : Except String (List Record) :=
  if offset = 0 then Except.ok [mockUser 1 "student", mockUser 2 "parent"]
  else Except.error "boom"

/-- Upstream endpoint that always answers an empty page. -/
def emptyUpstream (_ : Nat) : Except String (List Record) := Except.ok []

/-- Injected write-phase environment in which every write succeeds. -/
def noWriteErr (_ : String) : Option String := none

/-- A snapshot directory that does not exist yet. -/
def emptyDir : SnapDir :=
  { lock := none, statusFile := StatusFile.absent, entityFiles := [] }

/-- The recorded status string of a snapshot directory, if readable. -/
def recordedStatus (d : SnapDir) : Option String :=
  (get_snapshot d).map StatusDoc.status

/-- The recorded `fetch_stats.errors` list of a snapshot directory. -/
def recordedErrors (d : SnapDir) : Option (List (Nat × String)) :=
  (get_snapshot d).map fun doc => doc.fetchStats.errors

/-- The recorded `fetch_stats.total_api_calls` of a snapshot directory. -/
def recordedApiCalls (d : SnapDir) : Option Nat :=
  (get_snapshot d).map fun doc => doc.fetchStats.totalApiCalls

/-- C3: given the mock upstream with 3 pages of 2 users then an empty page,
`fetch_all_users` with page size 2 returns exactly the 6 records in request
order, and the `total_api_calls` value recorded in the final status document
of the snapshot fetch equals 3 (one fixed increment per entity fetch in
`create_snapshot`; the per-page counter inside `fetch_all_users`, which
reaches 4 here, is discarded by the source). -/
theorem C3_six_records_and_recorded_api_calls :
    (fetch_all_users usersThreePages 2 10).1 =
      [mockUser 1 "student", mockUser 2 "parent", mockUser 3 "student",
       mockUser 4 "parent", mockUser 5 "student", mockUser 6 "parent"] ∧
    recordedApiCalls (create_snapshot 7 "2025-01-02" "sess" 42 100 usersThreePages
      emptyUpstream emptyUpstream 2 10 noWriteErr emptyDir).2 = some 3 := by
  constructor
  · decide
  · decide

/-- C1 counterexample: a run of `create_snapshot` in which a page-level
exception (`boom` at offset 2) aborts user pagination after one page, yet the
snapshot ends `complete` and the recorded `fetch_stats.errors` is the empty
list — no corresponding entry exists. -/
theorem C1_counter_page_error_not_recorded :
    usersPageThenBoom 2 = Except.error "boom" ∧
    (fetch_all_users usersPageThenBoom 2 10).1.length = 2 ∧
    (create_snapshot 7 "2025-01-02" "sess" 42 100 usersPageThenBoom
      emptyUpstream emptyUpstream 2 10 noWriteErr emptyDir).1 = true ∧
    recordedStatus (create_snapshot 7 "2025-01-02" "sess" 42 100 usersPageThenBoom
      emptyUpstream emptyUpstream 2 10 noWriteErr emptyDir).2 = some "complete" ∧
    recordedErrors (create_snapshot 7 "2025-01-02" "sess" 42 100 usersPageThenBoom
      emptyUpstream emptyUpstream 2 10 noWriteErr emptyDir).2 = some [] := by
  refine ⟨rfl, by decide, by decide, by decide, by decide⟩

/-- C4 counterexample: the signer sorts the RAW parameter pairs before
percent-encoding them; sorting by ENCODED key (as the claim states) gives a
different parameter string — and a different signature base string — for the
keys `-` (unreserved, stays `-`) and `/` (encoded to `%2F`): raw order puts
`-` (0x2D) before `/` (0x2F), encoded order puts `%2F` (starting 0x25)
before `-`. -/
theorem C4_counter_sorted_before_encoding :
    generate_oauth_param_string [("-", "1"), ("/", "2")] = "-=1&%2F=2" ∧
    spec_param_string [("-", "1"), ("/", "2")] = "%2F=2&-=1" ∧
    generate_oauth_signature_base "GET" "https://api.example.com/ims/oneroster/v1p1/users"
        [("-", "1"), ("/", "2")] ≠
      spec_signature_base "GET" "https://api.example.com/ims/oneroster/v1p1/users"
        [("-", "1"), ("/", "2")] := by
  refine ⟨by decide, by decide, by decide⟩

/-- C4 amended: the signer builds the base string as `GET`, `&`, the
percent-encoded base URL (scheme+host+path, no query), `&`, the
percent-encoded parameter string, where the parameter string percent-encodes
every key and value independently (space as %20) and joins `key=value` pairs
with `&` — but the pairs are ordered by sorting the RAW pairs
lexicographically (key first, then value) BEFORE encoding; the HMAC-SHA256
signing key is the percent-encoded client secret followed by `&`. -/
theorem C4_amended_base_string_construction (method url : String)
    (params : List (String × String)) (clientSecret : String) :
    generate_oauth_signature_base method url params =
      spec_signature_base_amended method url params ∧
    oauth_signing_key clientSecret = pyQuote clientSecret ++ "&" := by
  refine ⟨?_, rfl⟩
  simp only [generate_oauth_signature_base, spec_signature_base_amended,
    spec_param_string_amended, generate_oauth_param_string, List.map_map]
  rfl

/-! Structural lemmas about `initialize_snapshot` and the write phase,
shared by several claims. -/

/-- A successful `initialize_snapshot` leaves the directory holding the
fresh lock stamped at `now` and the initial `fetching` status document. -/
theorem initialize_snapshot_true_state {districtId : Nat} {date sourceType : String}
    {now : Nat} {sessionId : String} {pid : Nat} {d d1 : SnapDir}
    (h : initialize_snapshot districtId date sourceType now sessionId pid d = (true, d1)) :
    d1.statusFile = StatusFile.readable (initial_status districtId date sourceType now sessionId) ∧
    d1.lock = some { sessionId := sessionId, startedAt := now, pid := pid } := by
  unfold initialize_snapshot at h
  rcases hr : is_snapshot_in_progress now d with ⟨p, dm⟩
  rw [hr] at h
  cases p with
  | true => simp at h
  | false =>
    simp only [Bool.false_eq_true, if_false] at h
    rcases hc : create_lock now sessionId pid dm with ⟨cb, dc⟩
    rw [hc] at h
    cases cb with
    | false => simp at h
    | true =>
      simp only [if_true] at h
      unfold create_lock at hc
      by_cases hl : dm.lock.isSome
      · simp [hl] at hc
      · simp [hl] at hc
        simp only [Prod.mk.injEq, true_and] at h
        subst h
        refine ⟨rfl, ?_⟩
        simp [update_status, ← hc]

/-- The write phase only touches `entityFiles` and the collected metadata:
the status file and the lock survive it unchanged, whether it succeeds or
aborts on a raised write error. -/
theorem write_phase_preserves (wErr : String → Option String) :
    ∀ (groups : List (String × List Record)) (d : SnapDir)
      (metas : List (String × SnapshotWriter.FileMeta)),
    (∀ d2 metas2, write_phase wErr groups d metas = Except.ok (d2, metas2) →
      d2.statusFile = d.statusFile ∧ d2.lock = d.lock) ∧
    (∀ e d2, write_phase wErr groups d metas = Except.error (e, d2) →
      d2.statusFile = d.statusFile ∧ d2.lock = d.lock) := by
  intro groups
  induction groups with
  | nil =>
    intro d metas
    constructor
    · intro d2 metas2 h
      simp only [write_phase, Except.ok.injEq, Prod.mk.injEq] at h
      rw [← h.1]
      exact ⟨rfl, rfl⟩
    · intro e d2 h
      simp [write_phase] at h
  | cons g rest ih =>
    intro d metas
    obtain ⟨name, recs⟩ := g
    by_cases he : recs.isEmpty
    · constructor
      · intro d2 metas2 h
        simp only [write_phase, he, if_true] at h
        exact (ih d metas).1 d2 metas2 h
      · intro e d2 h
        simp only [write_phase, he, if_true] at h
        exact (ih d metas).2 e d2 h
    · constructor
      · intro d2 metas2 h
        simp only [write_phase, he, if_false, Bool.false_eq_true] at h
        cases hw : wErr name with
        | some e => simp [hw] at h
        | none =>
          simp only [hw] at h
          cases hwr : SnapshotWriter.write_entity_data name recs with
          | error e => simp [hwr] at h
          | ok out =>
            obtain ⟨csv, jsonl, meta⟩ := out
            simp only [hwr] at h
            exact (ih { d with entityFiles := d.entityFiles ++ [name ++ ".csv", name ++ ".jsonl"] }
              (metas ++ [(name ++ ".csv", meta)])).1 d2 metas2 h
      · intro e d2 h
        simp only [write_phase, he, if_false, Bool.false_eq_true] at h
        cases hw : wErr name with
        | some e2 =>
          simp only [hw, Except.error.injEq, Prod.mk.injEq] at h
          rw [← h.2]
          exact ⟨rfl, rfl⟩
        | none =>
          simp only [hw] at h
          cases hwr : SnapshotWriter.write_entity_data name recs with
          | error e2 =>
            simp only [hwr, Except.error.injEq, Prod.mk.injEq] at h
            rw [← h.2]
            exact ⟨rfl, rfl⟩
          | ok out =>
            obtain ⟨csv, jsonl, meta⟩ := out
            simp only [hwr] at h
            exact (ih { d with entityFiles := d.entityFiles ++ [name ++ ".csv", name ++ ".jsonl"] }
              (metas ++ [(name ++ ".csv", meta)])).2 e d2 h

/-- C1 amended: a page-level exception aborts pagination for that entity
type without failing the overall fetch, but the source only logs it —
nothing is ever appended to `fetch_stats.errors` on that path, so whenever
`create_snapshot` returns true the final status document reads `complete`
with an EMPTY `fetch_stats.errors` list (errors are recorded solely by
`fail_snapshot`, on whole-snapshot failure). -/
theorem C1_amended_complete_has_empty_errors
    (districtId : Nat) (date sessionId : String) (pid now : Nat)
    (pageUsers pageClasses pageSchools : Nat → Except String (List Record))
    (limit fuel : Nat) (wErr : String → Option String) (d dF : SnapDir)
    (h : create_snapshot districtId date sessionId pid now pageUsers pageClasses
      pageSchools limit fuel wErr d = (true, dF)) :
    recordedStatus dF = some "complete" ∧ recordedErrors dF = some [] := by
  unfold create_snapshot at h
  simp only [] at h
  rcases hi : initialize_snapshot districtId date "classlink" now sessionId pid d with ⟨ib, d1⟩
  rw [hi] at h
  cases ib with
  | false => simp at h
  | true =>
    simp only [Bool.not_true, Bool.false_eq_true, if_false] at h
    have hstate := initialize_snapshot_true_state hi
    split at h
    case _ d2 metas heq =>
      simp only [Prod.mk.injEq, true_and] at h
      subst h
      have hpres := (write_phase_preserves wErr _ d1 []).1 d2 metas heq
      have hsf : d2.statusFile =
          StatusFile.readable (initial_status districtId date "classlink" now sessionId) := by
        rw [hpres.1, hstate.1]
      simp only [recordedStatus, recordedErrors, complete_snapshot, get_snapshot, hsf]
      exact ⟨rfl, rfl⟩
    case _ e d2 heq =>
      simp at h

/-- C1 witness: the amended theorem applied to a concrete successful run. -/
theorem C1_amended_witness :
    recordedStatus (create_snapshot 7 "2025-01-02" "sess" 42 100 usersThreePages
      emptyUpstream emptyUpstream 2 10 noWriteErr emptyDir).2 = some "complete" ∧
    recordedErrors (create_snapshot 7 "2025-01-02" "sess" 42 100 usersThreePages
      emptyUpstream emptyUpstream 2 10 noWriteErr emptyDir).2 = some [] :=
  C1_amended_complete_has_empty_errors 7 "2025-01-02" "sess" 42 100 usersThreePages
    emptyUpstream emptyUpstream 2 10 noWriteErr emptyDir _ (by decide)

/-- C2: once `initialize_snapshot` has returned true for a key and neither
`complete_snapshot` nor `fail_snapshot` has touched the directory, a second
`initialize_snapshot` within the 30-minute staleness window returns false
and leaves the directory — its lock file and its `fetching` status document
— exactly as the first call left it. -/
theorem C2_second_initialize_rejected
    (districtId : Nat) (date sourceType : String) (now now2 pid pid2 : Nat)
    (sid sid2 : String) (d d1 : SnapDir)
    (h : initialize_snapshot districtId date sourceType now sid pid d = (true, d1))
    (_h1 : now ≤ now2) (h2 : now2 - now ≤ 1800) :
    initialize_snapshot districtId date sourceType now2 sid2 pid2 d1 = (false, d1) := by
  have hstate := initialize_snapshot_true_state h
  have hprog : is_snapshot_in_progress now2 d1 = (true, d1) := by
    unfold is_snapshot_in_progress
    rw [hstate.2]
    have hns : ¬ (1800 < now2 - now) := by omega
    simp [hns]
  unfold initialize_snapshot
  rw [hprog]
  simp

/-- C2 witness: two concrete back-to-back initializations 100 seconds
apart; the second is rejected and changes nothing. -/
theorem C2_witness :
    initialize_snapshot 7 "2025-01-02" "classlink" 200 "b" 2
      (initialize_snapshot 7 "2025-01-02" "classlink" 100 "a" 1 emptyDir).2 =
    (false, (initialize_snapshot 7 "2025-01-02" "classlink" 100 "a" 1 emptyDir).2) :=
  C2_second_initialize_rejected 7 "2025-01-02" "classlink" 100 200 1 2 "a" "b"
    emptyDir _ (by decide) (by decide) (by decide)

/-- C5: for a lock file whose `started_at` lies more than 30 minutes in the
past, `is_snapshot_in_progress` answers false and deletes the lock file; for
a lock file at most 30 minutes old it answers true and leaves the directory
untouched. -/
theorem C5_lock_staleness (d : SnapDir) (lk : LockData) (now : Nat)
    (hd : d.lock = some lk) :
    (1800 < now - lk.startedAt →
      is_snapshot_in_progress now d = (false, { d with lock := none })) ∧
    (now - lk.startedAt ≤ 1800 → is_snapshot_in_progress now d = (true, d)) := by
  unfold is_snapshot_in_progress
  rw [hd]
  constructor
  · intro h
    simp [h]
  · intro h
    have hns : ¬ (1800 < now - lk.startedAt) := by omega
    simp [hns]

/-- A snapshot directory holding only a lock (started at 100) and no
readable status document. -/
def lockDir : SnapDir :=
  { lock := some { sessionId := "s", startedAt := 100, pid := 1 },
    statusFile := StatusFile.absent,
    entityFiles := [] }

/-- C5 witness: at time 2000 the lock (age 1900 s, over 30 minutes) is
reclaimed; at time 1840 (age 1740 s, about 29 minutes) it is honoured. -/
theorem C5_witness :
    is_snapshot_in_progress 2000 lockDir = (false, { lockDir with lock := none }) ∧
    is_snapshot_in_progress 1840 lockDir = (true, lockDir) :=
  ⟨(C5_lock_staleness lockDir { sessionId := "s", startedAt := 100, pid := 1 } 2000 rfl).1
      (by decide),
   (C5_lock_staleness lockDir { sessionId := "s", startedAt := 100, pid := 1 } 1840 rfl).2
      (by decide)⟩

/-- C9: when the status document for a key is absent or unreadable,
`complete_snapshot` and `fail_snapshot` both return without writing any
status document and without releasing the lock — the directory, its lock
file included, is exactly as before. -/
theorem C9_missing_status_aborts (d : SnapDir) (now now2 : Nat)
    (files : List (String × SnapshotWriter.FileMeta)) (stats : FetchStats) (e : String)
    (h : d.statusFile = StatusFile.absent ∨ d.statusFile = StatusFile.unreadable) :
    complete_snapshot now files stats d = d ∧ fail_snapshot now2 e d = d := by
  have hg : get_snapshot d = none := by
    rcases h with h | h <;> simp [get_snapshot, h]
  constructor <;> simp [complete_snapshot, fail_snapshot, hg]

/-- The all-zero `fetch_stats` object. -/
def zeroStats : FetchStats :=
  { totalApiCalls := 0, totalRecords := 0, durationSeconds := 0, errors := [] }

/-- C9 witness: on a directory with a lock and no status document, both
terminal transitions are no-ops and the lock file survives. -/
theorem C9_witness :
    complete_snapshot 10 [] zeroStats lockDir = lockDir ∧
    fail_snapshot 11 "e" lockDir = lockDir :=
  C9_missing_status_aborts lockDir 10 11 [] zeroStats "e" (Or.inl rfl)

/-- Every known entity type's column list starts with `sourcedId`. -/
theorem COLUMNS_starts_sourcedId (entityType : String) (cols : List String)
    (h : COLUMNS entityType = some cols) :
    ∃ rest, cols = "sourcedId" :: rest := by
  unfold COLUMNS at h
  split at h
  all_goals first
    | exact ⟨_, (Option.some.inj h).symm⟩
    | exact absurd h (by simp)

/-- C6: for every list of records accepted by `write_entity_data`, the CSV
flat file and the JSONL full file hold the same number of data rows, the
rows appear in input order in both (the JSONL lines ARE the input records,
and the CSV rows are their column projections position by position), and at
each position the `sourcedId` cell of the CSV row equals the `sourcedId`
field of the JSON record on the corresponding JSONL line. -/
theorem C6_dual_format_consistency (entityType : String) (data : List Record)
    (csv : List (List String)) (jsonl : List Record) (meta : SnapshotWriter.FileMeta)
    (h : write_entity_data entityType data = Except.ok (csv, jsonl, meta)) :
    csv.length = jsonl.length ∧ jsonl = data ∧
    (∀ i (h1 : i < csv.length) (h2 : i < data.length),
      csv.get ⟨i, h1⟩ = meta.columns.map fun c => dictGetD (data.get ⟨i, h2⟩) c "") ∧
    ∀ i (h1 : i < csv.length) (h2 : i < jsonl.length),
      cellOf meta.columns (csv.get ⟨i, h1⟩) "sourcedId" =
        some (dictGetD (jsonl.get ⟨i, h2⟩) "sourcedId" "") := by
  unfold write_entity_data at h
  cases hc : COLUMNS entityType with
  | none => rw [hc] at h; simp at h
  | some cols =>
    rw [hc] at h
    simp only [Except.ok.injEq, Prod.mk.injEq] at h
    obtain ⟨hcsv, hjsonl, hmeta⟩ := h
    obtain ⟨rest, hrest⟩ := COLUMNS_starts_sourcedId entityType cols hc
    subst hjsonl
    subst hrest
    subst hcsv
    subst hmeta
    refine ⟨by simp, rfl, ?_, ?_⟩
    · intro i h1 h2
      simp [List.getElem_map]
    · intro i h1 h2
      simp [List.getElem_map, cellOf, colIndex]

/-- Two sample student records. -/
def sampleStudents : List Record :=
  [[("sourcedId", "s1"), ("givenName", "Ann"), ("extra", "zzz")],
   [("sourcedId", "s2"), ("familyName", "Poe")]]

/-- The flat rows the writer produces for `sampleStudents`. -/
def sampleStudentsCsv : List (List String) :=
  [["s1", "Ann", "", "", "", "", ""], ["s2", "", "Poe", "", "", "", ""]]

/-- The metadata the writer produces for `sampleStudents`. -/
def sampleStudentsMeta : SnapshotWriter.FileMeta :=
  { rows := sampleStudents.length,
    columns := ["sourcedId", "givenName", "familyName", "email", "grade",
      "status", "identifier"] }

/-- C6 witness: the dual-format consistency theorem applied to a concrete
write of two student records. -/
theorem C6_witness :
    sampleStudentsCsv.length = sampleStudents.length ∧
    sampleStudents = sampleStudents ∧
    (∀ i (h1 : i < sampleStudentsCsv.length) (h2 : i < sampleStudents.length),
      sampleStudentsCsv.get ⟨i, h1⟩ = sampleStudentsMeta.columns.map fun c =>
        dictGetD (sampleStudents.get ⟨i, h2⟩) c "") ∧
    ∀ i (h1 : i < sampleStudentsCsv.length) (h2 : i < sampleStudents.length),
      cellOf sampleStudentsMeta.columns (sampleStudentsCsv.get ⟨i, h1⟩) "sourcedId" =
        some (dictGetD (sampleStudents.get ⟨i, h2⟩) "sourcedId" "") :=
  C6_dual_format_consistency "students" sampleStudents sampleStudentsCsv
    sampleStudents sampleStudentsMeta rfl

/-- The `search_csv` scan loop, having already collected `n` matches with
`n < limit`, returns the next `limit - n` matching rows in file order. -/
theorem search_go_take (ql : String) (cols : List String) (limit : Nat) :
    ∀ (rows : List Record) (n : Nat), n < limit →
    search_go ql cols limit rows n =
      (rows.filter (row_matches ql cols)).take (limit - n) := by
  intro rows
  induction rows with
  | nil => intro n h; simp [search_go]
  | cons r rs ih =>
    intro n h
    by_cases hm : row_matches ql cols r
    · by_cases hl : n + 1 ≥ limit
      · have h1 : limit - n = 1 := by omega
        simp [search_go, hm, hl, List.filter_cons, h1]
      · have h2 : n + 1 < limit := by omega
        have h3 : limit - n = (limit - (n + 1)) + 1 := by omega
        simp only [search_go, hm, if_true, hl, if_false, List.filter_cons]
        rw [ih (n + 1) h2, h3]
        exact List.take_succ_cons.symm
    · simp only [search_go, hm, Bool.false_eq_true, if_false, List.filter_cons]
      rw [ih n h]

/-- C7: `search_csv` returns exactly the first `limit` rows, in file order,
among those in which some searched column case-insensitively contains the
query as a substring — and it is insensitive to anything in the file after
the `limit`-th match (the scan short-circuits there). -/
theorem C7_search_csv_spec (entityType query : String) (cols : Option (List String))
    (limit : Nat) (rows extra : List Record) (h : 0 < limit) :
    search_csv entityType query cols limit (some rows) =
      (rows.filter (row_matches (pyLower query) (effective_columns entityType cols))).take
        limit ∧
    (limit ≤ (rows.filter (row_matches (pyLower query)
        (effective_columns entityType cols))).length →
      search_csv entityType query cols limit (some (rows ++ extra)) =
        search_csv entityType query cols limit (some rows)) := by
  have key : ∀ rs : List Record, search_csv entityType query cols limit (some rs) =
      (rs.filter (row_matches (pyLower query) (effective_columns entityType cols))).take
        limit := by
    intro rs
    unfold search_csv
    show search_go (pyLower query) (effective_columns entityType cols) limit rs 0 = _
    rw [search_go_take _ _ _ rs 0 h, Nat.sub_zero]
  refine ⟨key rows, fun hlen => ?_⟩
  rw [key, key, List.filter_append, List.take_append_of_le_length hlen]

/-- Three flat student rows, two of which contain `smith`. -/
def smithRows : List Record :=
  [[("sourcedId", "s1"), ("givenName", "Ann"), ("familyName", "Smith")],
   [("sourcedId", "s2"), ("givenName", "Bob"), ("familyName", "Jones")],
   [("sourcedId", "s3"), ("givenName", "Cal"), ("familyName", "Smithers")]]

/-- C7 witness: the search theorem applied to a concrete file with limit 1. -/
theorem C7_witness :
    search_csv "students" "smith" none 1 (some smithRows) =
      (smithRows.filter (row_matches (pyLower "smith")
        (effective_columns "students" none))).take 1 ∧
    (1 ≤ (smithRows.filter (row_matches (pyLower "smith")
        (effective_columns "students" none))).length →
      search_csv "students" "smith" none 1 (some (smithRows ++ [])) =
        search_csv "students" "smith" none 1 (some smithRows)) :=
  C7_search_csv_spec "students" "smith" none 1 smithRows [] (by decide)

/-- A non-empty string has a non-empty character list. -/
theorem data_ne_nil_of_ne_empty {q : String} (h : q ≠ "") : q.data ≠ [] := by
  intro hd
  apply h
  cases q with
  | mk l => cases hd; rfl

/-- A non-empty needle (even lowercased) is never found in the empty
string. -/
theorem pyIn_lower_empty {q : String} (h : q ≠ "") :
    pyIn (pyLower q) (pyLower "") = false := by
  have hd := data_ne_nil_of_ne_empty h
  show listContainsSub ((pyLower q).data) [] = false
  cases hq : q.data with
  | nil => exact absurd hq hd
  | cons a l => simp [pyLower, hq, listContainsSub]

/-- C10: for any non-empty search term, the Manager's `search_snapshot`
returns exactly the rows — all of them, in file order, with no result cap —
in which SOME column value (whatever the column) case-insensitively contains
the term as a substring; unlike the Writer's `search_csv` it consults every
column and never truncates (compare `C7_search_csv_spec`, which searches an
entity-specific column subset and takes at most `limit` rows). -/
theorem C10_search_snapshot_all_columns_no_limit (searchTerm : String)
    (rows : List Record) (h : searchTerm ≠ "") :
    search_snapshot searchTerm (some rows) =
      rows.filter fun r => r.any fun kv =>
        pyIn (pyLower searchTerm) (pyLower kv.2) := by
  have hf := pyIn_lower_empty h
  have step : ∀ kv : String × String,
      (kv.2 != "" && pyIn (pyLower searchTerm) (pyLower kv.2)) =
        pyIn (pyLower searchTerm) (pyLower kv.2) := by
    intro kv
    by_cases he : kv.2 = ""
    · rw [he]
      simp [hf]
    · simp [he]
  have anyEq : ∀ r : Record,
      (r.any fun kv => kv.2 != "" && pyIn (pyLower searchTerm) (pyLower kv.2)) =
        (r.any fun kv => pyIn (pyLower searchTerm) (pyLower kv.2)) := by
    intro r
    induction r with
    | nil => rfl
    | cons kv rest ihr => simp only [List.any_cons, step kv, ihr]
  unfold search_snapshot
  show rows.filter _ = rows.filter _
  exact List.filter_congr fun r _ => anyEq r

/-- C10 witness: the manager-side search theorem at a concrete file. -/
theorem C10_witness :
    search_snapshot "Smith" (some smithRows) =
      smithRows.filter fun r => r.any fun kv =>
        pyIn (pyLower "Smith") (pyLower kv.2) :=
  C10_search_snapshot_all_columns_no_limit "Smith" smithRows (by decide)

/-- An empty entity group is skipped by the write phase. -/
theorem write_phase_skip (wErr : String → Option String) (name : String)
    (rest : List (String × List Record)) (d : SnapDir)
    (metas : List (String × SnapshotWriter.FileMeta)) :
    write_phase wErr ((name, ([] : List Record)) :: rest) d metas =
      write_phase wErr rest d metas := by
  simp [write_phase]

/-- A non-empty group whose write raises aborts the write phase: the two
entity files exist at that point and the error escapes. -/
theorem write_phase_raises (wErr : String → Option String) (name : String)
    (recs : List Record) (rest : List (String × List Record)) (d : SnapDir)
    (metas : List (String × SnapshotWriter.FileMeta)) (e : String)
    (hne : recs ≠ []) (hw : wErr name = some e) :
    write_phase wErr ((name, recs) :: rest) d metas =
      Except.error (e,
        { d with entityFiles := d.entityFiles ++ [name ++ ".csv", name ++ ".jsonl"] }) := by
  have he : recs.isEmpty = false := by
    cases recs with
    | nil => exact absurd rfl hne
    | cons a l => rfl
  simp only [write_phase, he, Bool.false_eq_true, if_false, hw]

/-- A non-empty group of a known entity type whose write succeeds adds its
two files and its metadata and continues. -/
theorem write_phase_written (wErr : String → Option String) (name : String)
    (recs : List Record) (rest : List (String × List Record)) (d : SnapDir)
    (metas : List (String × SnapshotWriter.FileMeta)) (cols : List String)
    (hne : recs ≠ []) (hw : wErr name = none)
    (hcols : SnapshotWriter.COLUMNS name = some cols) :
    write_phase wErr ((name, recs) :: rest) d metas =
      write_phase wErr rest
        { d with entityFiles := d.entityFiles ++ [name ++ ".csv", name ++ ".jsonl"] }
        (metas ++ [(name ++ ".csv", { rows := recs.length, columns := cols })]) := by
  have he : recs.isEmpty = false := by
    cases recs with
    | nil => exact absurd rfl hne
    | cons a l => rfl
  simp only [write_phase, he, Bool.false_eq_true, if_false, hw,
    SnapshotWriter.write_entity_data, hcols]

/-- When no lock file exists and no fresh `fetching` status is present,
`initialize_snapshot` succeeds and produces: the lock stamped at `now`, the
initial status document, the directory's other files untouched. -/
theorem initialize_snapshot_success (districtId : Nat) (date sourceType : String)
    (now : Nat) (sid : String) (pid : Nat) (d : SnapDir)
    (hlock : d.lock = none) (hprog : (is_snapshot_in_progress now d).1 = false) :
    initialize_snapshot districtId date sourceType now sid pid d =
      (true, { lock := some { sessionId := sid, startedAt := now, pid := pid },
               statusFile := StatusFile.readable
                 (initial_status districtId date sourceType now sid),
               entityFiles := d.entityFiles }) := by
  have hsnd : (is_snapshot_in_progress now d).2 = d := by
    unfold is_snapshot_in_progress
    rw [hlock]
    cases get_snapshot d with
    | none => rfl
    | some st =>
      dsimp only
      split_ifs <;> rfl
  unfold initialize_snapshot
  rcases hp : is_snapshot_in_progress now d with ⟨b, dd⟩
  rw [hp] at hprog hsnd
  simp only at hprog hsnd
  subst hprog
  subst hsnd
  simp [create_lock, hlock, update_status]

/-- C8: if `create_snapshot` raises after writing the students entity files
but before writing classes — the parents write raises, or the parents group
is empty or written and the classes write raises — the resulting directory
has status `failed` in its status document, no lock file, and no entity
files at all (the students CSV/JSONL written earlier included): only the
status document remains. -/
theorem C8_fail_after_students_before_classes
    (districtId : Nat) (date sessionId : String) (pid now : Nat)
    (pageUsers pageClasses pageSchools : Nat → Except String (List Record))
    (limit fuel : Nat) (wErr : String → Option String) (d : SnapDir) (e : String)
    (hlock : d.lock = none)
    (hprog : (is_snapshot_in_progress now d).1 = false)
    (hstu : (fetch_all_users pageUsers limit fuel).1.filter
      (fun u => dictGet u "role" == some "student") ≠ [])
    (hws : wErr "students" = none)
    (hfail :
      ((fetch_all_users pageUsers limit fuel).1.filter (fun u =>
          dictGet u "role" == some "parent" || dictGet u "role" == some "guardian") ≠ [] ∧
        wErr "parents" = some e) ∨
      (((fetch_all_users pageUsers limit fuel).1.filter (fun u =>
          dictGet u "role" == some "parent" || dictGet u "role" == some "guardian") = [] ∨
        wErr "parents" = none) ∧
        fetch_entity_paginated pageClasses pageSchools "classes" limit fuel ≠ [] ∧
        wErr "classes" = some e)) :
    ∃ dF, create_snapshot districtId date sessionId pid now pageUsers pageClasses
        pageSchools limit fuel wErr d = (false, dF) ∧
      recordedStatus dF = some "failed" ∧ dF.lock = none ∧ dF.entityFiles = [] := by
  have hini := initialize_snapshot_success districtId date "classlink" now sessionId pid d
    hlock hprog
  unfold create_snapshot
  rw [hini]
  simp only [Bool.not_true, Bool.false_eq_true, if_false]
  rw [write_phase_written wErr "students" _ _ _ _ _ hstu hws rfl]
  rcases hfail with ⟨hpne, hpe⟩ | ⟨hpor, hcne, hce⟩
  · rw [write_phase_raises wErr "parents" _ _ _ _ e hpne hpe]
    exact ⟨_, rfl, rfl, rfl, rfl⟩
  · rcases hpor with hpe | hwp
    · rw [hpe, write_phase_skip,
        write_phase_raises wErr "classes" _ _ _ _ e hcne hce]
      exact ⟨_, rfl, rfl, rfl, rfl⟩
    · by_cases hpe2 : (fetch_all_users pageUsers limit fuel).1.filter (fun u =>
          dictGet u "role" == some "parent" || dictGet u "role" == some "guardian") = []
      · rw [hpe2, write_phase_skip,
          write_phase_raises wErr "classes" _ _ _ _ e hcne hce]
        exact ⟨_, rfl, rfl, rfl, rfl⟩
      · rw [write_phase_written wErr "parents" _ _ _ _ _ hpe2 hwp rfl,
          write_phase_raises wErr "classes" _ _ _ _ e hcne hce]
        exact ⟨_, rfl, rfl, rfl, rfl⟩

/-- Upstream users endpoint serving one short page with one student and one
parent. -/
def usersOnePage (offset : Nat) : Except String (List Record) :=
  if offset = 0 then Except.ok [mockUser 1 "student", mockUser 2 "parent"]
  else Except.ok []

/-- Injected write-phase environment in which the parents write raises. -/
def wErrParents (name : String) : Option String :=
  if name = "parents" then some "disk full" else none

/-- C8 witness: a concrete run in which the students write succeeds and the
parents write raises; the snapshot ends failed, unlocked, with no entity
files. -/
theorem C8_witness :
    ∃ dF, create_snapshot 7 "2025-01-02" "sess" 42 100 usersOnePage
        emptyUpstream emptyUpstream 2000 10 wErrParents emptyDir = (false, dF) ∧
      recordedStatus dF = some "failed" ∧ dF.lock = none ∧ dF.entityFiles = [] :=
  C8_fail_after_students_before_classes 7 "2025-01-02" "sess" 42 100 usersOnePage
    emptyUpstream emptyUpstream 2000 10 wErrParents emptyDir "disk full"
    rfl (by decide) (by decide) (by decide) (Or.inl ⟨by decide, by decide⟩)
